import Mathlib

/-!
Verification of the song-to-MP3 scraper/server repository.

The Python sources (`scraper.py`, `server.py`) are shallowly embedded below:
pure decision logic is translated into executable Lean functions, external
effects (the `spotdl` subprocess, the `yt_dlp` extractor, the filesystem and
the wall clock) are passed in explicitly as values describing their observable
outcome, and Python dictionaries with optional keys become structures with
`Option` fields.  Python integers are modelled by `Nat` (all the quantities
involved — byte counts, durations, timestamps — are non-negative in the
source).
-/

deriving instance DecidableEq for Except

namespace Scraper

/-- Result of Python substring test `needle in hay`, on character lists. -/
def containsSub : List Char → List Char → Bool
  | needle, [] => needle.isEmpty
  | needle, c :: rest => needle.isPrefixOf (c :: rest) || containsSub needle rest

/-- Python `needle in hay` for strings. -/
def pyIn (needle hay : String) : Bool :=
  containsSub needle.toList hay.toList

/-- Python `s.startswith(pre)`. -/
def strStartsWith (s pre : String) : Bool :=
  pre.toList.isPrefixOf s.toList

/-- Python `s.endswith(suffix)` (as performed by a `*.mp3` glob pattern). -/
def strEndsWith (s suffix : String) : Bool :=
  suffix.toList.isSuffixOf s.toList

/-- ASCII whitespace, as stripped by Python `str.strip()`. -/
def isSpaceChar (c : Char) : Bool :=
  c == ' ' || c == '\t' || c == '\n' || c == '\r' || c == '\x0b' || c == '\x0c'

/-- Python `s.strip()`. -/
def pyStrip (s : String) : String :=
  String.mk (((s.toList.dropWhile isSpaceChar).reverse.dropWhile isSpaceChar).reverse)

/-- Split a character list on a separator character; like Python
`s.split(sep)`, the empty input yields one empty group. -/
def splitOnChar (sep : Char) : List Char → List (List Char)
  | [] => [[]]
  | a :: rest =>
    match splitOnChar sep rest with
    | [] => if a == sep then [[], []] else [[a]]
    | g :: gs => if a == sep then [] :: g :: gs else (a :: g) :: gs

/-- Python `", ".join(parts)` (and any other separator join). -/
def joinSep (sep : String) : List String → String
  | [] => ""
  | [s] => s
  | s :: rest => s ++ sep ++ joinSep sep rest

/-- Python truthiness-based `or` on an optional string: an absent or empty
string falls through to the default (`x.get(k) or d`). -/
def pyOrStr (o : Option String) (d : String) : String :=
  match o with
  | some s => if s = "" then d else s
  | none => d

/-- A raw result entry produced by the `yt_dlp` extractor.  Every field is
optional, mirroring `dict.get` access in the source; a key that is absent or
mapped to `None` is `none` here. -/
structure Entry where
  id : Option String
  title : Option String
  uploader : Option String
  channel : Option String
  duration : Option Nat
  url : Option String
  webpage_url : Option String
  thumbnail : Option String
deriving DecidableEq

/-- Python `entry.get("duration") or 0` (source lines 133 and 165). -/
def durOr0 (e : Entry) : Nat := e.duration.getD 0

/-- The metadata dictionary returned by `SongScraper.search` (source lines
83-93 and 169-179). -/
structure SongMeta where
  id : String
  title : String
  url : String
  duration : Nat
  uploader : String
  thumbnail : String
  artist : String
  album : String
  spotify_url : String
deriving DecidableEq

/-- Duration-window test from the selection loop of `_search_ytmusic`
(source line 165): `90 <= (entry.get("duration") or 0) <= 420`, and `None`
entries are skipped. -/
def inRange (oe : Option Entry) : Bool :=
  match oe with
  | some e => decide (90 ≤ durOr0 e) && decide (durOr0 e ≤ 420)
  | none => false

/-- Errors raised out of the search path: `LookupError` for an empty result
list (source line 161), and the attribute error hit when the selected entry
is `None` (dict access on `None` in source lines 170-177). -/
inductive SearchErr where
  | lookupError (query : String)
  | noneAccess
deriving DecidableEq

/-- The dictionary `_search_ytmusic` builds from the selected entry (source
lines 169-179), with each `dict.get` default reproduced. -/
def metaOfEntry (b : Entry) : SongMeta :=
  { id := b.id.getD ""
  , title := b.title.getD "Unknown"
  , url := pyOrStr b.webpage_url ("https://www.youtube.com/watch?v=" ++ b.id.getD "")
  , duration := b.duration.getD 0
  , uploader := b.uploader.getD "Unknown"
  , thumbnail := b.thumbnail.getD ""
  , artist := b.uploader.getD "Unknown"
  , album := ""
  , spotify_url := "" }

/-- `SongScraper._search_ytmusic` (source lines 143-179), applied to the
entry list the extractor returned for `ytsearch5:<query>`.  The source sets
`best = entries[0]`, then replaces it with the first entry whose duration
lies in `[90, 420]` (skipping `None` entries), and builds the result
dictionary from `best`. -/
def searchYtmusic (entries : List (Option Entry)) (q : String) :
    Except SearchErr SongMeta :=
  match entries with
  | [] => Except.error (SearchErr.lookupError q)
  | e0 :: _ =>
    match (entries.find? inRange).getD e0 with
    | none => Except.error SearchErr.noneAccess
    | some b => Except.ok (metaOfEntry b)

/-- Observable outcome of the `subprocess.run(["spotdl", "url", query], ...)`
call in `SongScraper.search` (source lines 53-57): either it completed and
produced stdout lines, or it raised one of the exceptions the source
catches (`TimeoutExpired`, `FileNotFoundError`, or anything else, source
lines 95-98). -/
inductive ProcOutcome where
  | ok (stdoutLines : List String)
  | timeoutExpired
  | fileNotFoundError
  | otherException
deriving DecidableEq

/-- True when the primary `spotdl url` call raised (source lines 95-98 catch
every such exception and fall through to the YouTube Music fallback). -/
def primaryFailed : ProcOutcome → Bool
  | ProcOutcome.ok _ => false
  | _ => true

/-- URL extraction from `spotdl url` stdout (source line 58): strip each line
and keep those starting with "http". -/
def extractUrls (lines : List String) : List String :=
  (lines.map pyStrip).filter (fun l => strStartsWith l "http")

/-- The JSON object `spotdl meta <url> --json` printed, as consumed in source
lines 82-93.  Each field is optional, mirroring `meta.get`. -/
structure SpotMeta where
  song_id : Option String
  name : Option String
  duration : Option Nat
  artists : Option (List String)
  cover_url : Option String
  album_name : Option String
deriving DecidableEq

/-- The dictionary `search` builds from a parsed spotdl metadata object
(source lines 83-93). -/
def metaOfSpot (surl : String) (m : SpotMeta) (q : String) : SongMeta :=
  { id := m.song_id.getD ""
  , title := m.name.getD q
  , url := surl
  , duration := m.duration.getD 0
  , uploader := joinSep ", " (m.artists.getD ["Unknown"])
  , thumbnail := m.cover_url.getD ""
  , artist := joinSep ", " (m.artists.getD ["Unknown"])
  , album := m.album_name.getD ""
  , spotify_url := surl }

/-- `SongScraper.search` (source lines 42-101).  `urlCall` is the outcome of
the `spotdl url` subprocess, `metaOf` abstracts the `spotdl meta --json`
subprocess plus the line-by-line JSON parse of source lines 66-80 (`none`
when no line parsed to a non-empty object, or that call itself raised one of
the caught exceptions), and `entries` is what the YouTube Music fallback
extractor would return.  Every failure of the primary provider — raised
exception, no URLs on stdout (the internally raised and caught
`LookupError`), or unusable metadata — falls through to
`searchYtmusic` exactly as in the source. -/
def search (urlCall : ProcOutcome) (metaOf : String → Option SpotMeta)
    (entries : List (Option Entry)) (q : String) : Except SearchErr SongMeta :=
  match urlCall with
  | ProcOutcome.ok lines =>
    match extractUrls lines with
    | [] => searchYtmusic entries q
    | surl :: _ =>
      match metaOf surl with
      | some m => Except.ok (metaOfSpot surl m q)
      | none => searchYtmusic entries q
  | _ => searchYtmusic entries q

/-- One suggestion dictionary built by `search_multi` (source lines 128-136). -/
structure MultiResult where
  title : String
  artist : String
  album : String
  duration : Nat
  url : String
  thumbnail : String
deriving DecidableEq

/-- The per-entry dictionary construction of the `search_multi` loop (source
lines 125-136); `None` entries are skipped via `continue`. -/
def multiOf (oe : Option Entry) : Option MultiResult :=
  match oe with
  | none => none
  | some e =>
    let vid := e.id.getD ""
    some
      { title := e.title.getD "Unknown"
      , artist := e.uploader.getD (e.channel.getD "")
      , album := ""
      , duration := durOr0 e
      , url := pyOrStr e.url (pyOrStr e.webpage_url ("https://www.youtube.com/watch?v=" ++ vid))
      , thumbnail := if vid = "" then "" else "https://i.ytimg.com/vi/" ++ vid ++ "/mqdefault.jpg" }

/-- `SongScraper.search_multi` (source lines 103-141).  `provider` is the
outcome of the `yt_dlp` extraction: `Except.error ()` when it raised (the
bare `except Exception` of source lines 138-139 leaves `results = []`), and
`Except.ok entries` with the extracted entry list otherwise.  The final
`return results[:limit]` truncation is `List.take`. -/
def searchMulti (provider : Except Unit (List (Option Entry))) (limit : Nat) :
    List MultiResult :=
  match provider with
  | Except.error _ => []
  | Except.ok entries => (entries.filterMap multiOf).take limit

/-- A file in the shared output directory, identified by its name and
modification timestamp (`st_mtime`). -/
structure FsFile where
  name : String
  mtime : Nat
deriving DecidableEq

/-- Whether `directory.glob("*.mp3")` matches the file. -/
def isMp3 (f : FsFile) : Bool := strEndsWith f.name ".mp3"

/-- Python `max(files, key=...)` on a possibly empty list: scan left to
right, replacing the current best only on a strictly larger key, so ties
keep the earlier element; `none` on the empty list (where Python raises). -/
def pyMaxBy (key : FsFile → Nat) : List FsFile → Option FsFile
  | [] => none
  | x :: xs => some (xs.foldl (fun b y => if key b < key y then y else b) x)

/-- `SongScraper._find_mp3` (source lines 327-333): glob the directory for
`*.mp3`; if nothing matches return `None`, else the file with the most
recent modification time.  The `title_hint` argument of the source is
unused there and omitted. -/
def findMp3 (dir : List FsFile) : Option FsFile :=
  match dir.filter isMp3 with
  | [] => none
  | f :: fs => pyMaxBy FsFile.mtime (f :: fs)

/-- The spotify-domain test of `SongScraper.download` (source line 200):
`"spotify.com" in url or "open.spotify" in url`. -/
def isSpotifyUrl (url : String) : Bool :=
  pyIn "spotify.com" url || pyIn "open.spotify" url

/-- Failure of one acquisition provider: any raised exception (subprocess
timeout, network error, ...), or the `FileNotFoundError` raised when the
provider ran but no `.mp3` materialized (source lines 246-250 and 296-299). -/
inductive DlErr where
  | providerException
  | fileNotFoundError
deriving DecidableEq

/-- `SongScraper._download_ytdlp` (source lines 255-302) at the level of its
observable outcome: if the `yt_dlp` extraction raised, that exception
propagates; otherwise the produced file is located with `_find_mp3` over the
output directory contents `fsAfter`, and `FileNotFoundError` is raised when
nothing matches. -/
def downloadYtdlp (extractRaised : Bool) (fsAfter : List FsFile) :
    Except DlErr FsFile :=
  if extractRaised then Except.error DlErr.providerException
  else
    match findMp3 fsAfter with
    | some p => Except.ok p
    | none => Except.error DlErr.fileNotFoundError

/-- `SongScraper._download_spotdl` (source lines 210-253): record the `.mp3`
files present before, run the subprocess (whose raised exceptions, e.g.
`TimeoutExpired` after 120s, propagate), then pick the most recent of the new
`.mp3` files, falling back to `_find_mp3` over the whole directory, and
raising `FileNotFoundError` when even that finds nothing. -/
def downloadSpotdl (runRaised : Bool) (fsBefore fsAfter : List FsFile) :
    Except DlErr FsFile :=
  if runRaised then Except.error DlErr.providerException
  else
    let before := fsBefore.filter isMp3
    let newFiles := (fsAfter.filter isMp3).filter (fun f => decide (f ∉ before))
    match pyMaxBy FsFile.mtime newFiles with
    | some p => Except.ok p
    | none =>
      match findMp3 fsAfter with
      | some p => Except.ok p
      | none => Except.error DlErr.fileNotFoundError

/-- `SongScraper.download` (source lines 185-208): for a Spotify URL try
`_download_spotdl` first and fall back to `_download_ytdlp` on any exception
(the bare `except Exception` of source lines 205-206); for any other URL go
straight to `_download_ytdlp`.  `spotdlRes` and `ytdlpRes` are the outcomes
the two providers would produce for this URL and output directory. -/
def download (url : String) (spotdlRes ytdlpRes : Except DlErr FsFile) :
    Except DlErr FsFile :=
  if isSpotifyUrl url then
    match spotdlRes with
    | Except.ok p => Except.ok p
    | Except.error _ => ytdlpRes
  else ytdlpRes

/-- `SongScraper.MAX_DURATION` (source line 31).  The constant is declared
on the class but never consulted anywhere else in the source. -/
def MAX_DURATION : Nat := 900

/-- Error propagating out of `search_and_download`: either the search raised
or the download chain raised. -/
inductive PipelineErr where
  | searchFailed (e : SearchErr)
  | downloadFailed (e : DlErr)
deriving DecidableEq

/-- `SongScraper.search_and_download` (source lines 308-321): run `search`,
then immediately `download` the resulting URL.  No duration check of any
kind stands between the two calls. -/
def search_and_download (urlCall : ProcOutcome) (metaOf : String → Option SpotMeta)
    (entries : List (Option Entry)) (q : String)
    (spotdlRes ytdlpRes : Except DlErr FsFile) :
    Except PipelineErr (SongMeta × FsFile) :=
  match search urlCall metaOf entries q with
  | Except.error e => Except.error (PipelineErr.searchFailed e)
  | Except.ok m =>
    match download m.url spotdlRes ytdlpRes with
    | Except.error e => Except.error (PipelineErr.downloadFailed e)
    | Except.ok p => Except.ok (m, p)

/-- Concrete test candidate: a "Live" upload of duration 200 seconds. -/
def eLive : Entry :=
  { id := some "L1", title := some "Song X (Live)", uploader := some "U"
  , channel := none, duration := some 200, url := none
  , webpage_url := some "https://youtube.example/live", thumbnail := none }

/-- Concrete test candidate: an "Official Audio" upload of duration 200
seconds, otherwise identical to `eLive`. -/
def eAudio : Entry :=
  { id := some "A1", title := some "Song X (Official Audio)", uploader := some "U"
  , channel := none, duration := some 200, url := none
  , webpage_url := some "https://youtube.example/audio", thumbnail := none }

/-- Concrete test metadata: a Spotify result whose duration, 1000 seconds,
exceeds `MAX_DURATION`. -/
def longMix : SpotMeta :=
  { song_id := some "id1", name := some "Long Mix", duration := some 1000
  , artists := some ["A"], cover_url := none, album_name := none }

end Scraper

namespace Server

open Scraper

/-- One task record of the `download_tasks` dictionary (source lines 86-90
and 170-175).  `search_result` exists only on `/api/search-download` tasks
and stays `none` elsewhere. -/
structure DownloadTask where
  status : String
  percent : Nat
  title : String
  result : Option String
  error : Option String
  search_result : Option SongMeta
deriving DecidableEq

/-- The initial record inserted by `api_download` (source lines 86-90). -/
def initDownloadTask (title : String) : DownloadTask :=
  { status := "downloading", percent := 0, title := title
  , result := none, error := none, search_result := none }

/-- The initial record inserted by `api_search_download` (source lines
170-175). -/
def initSearchTask (query : String) : DownloadTask :=
  { status := "searching", percent := 0, title := query
  , result := none, error := none, search_result := none }

/-- The dictionary `yt_dlp` passes to a progress hook, with the keys the
hooks read.  An absent key or a key mapped to `None` is `none`. -/
structure ProgressDict where
  status : String
  downloaded_bytes : Nat
  total_bytes : Option Nat
  total_bytes_estimate : Option Nat
deriving DecidableEq

/-- Python `d.get("total_bytes") or d.get("total_bytes_estimate") or 0`
(source lines 95 and 180): truthiness-based fallback, so a present `0` also
falls through. -/
def pyOrTotal (a b : Option Nat) : Nat :=
  match a with
  | some n => if n ≠ 0 then n else (match b with | some m => m | none => 0)
  | none => match b with | some m => m | none => 0

/-- The `_progress_hook` closures of `api_download` (source lines 92-102) and
`api_search_download` (source lines 177-187), which are textually identical,
as a pure update of the hooked task record.  On `status == "downloading"` the
stored percent becomes `int(downloaded / total * 100)` when `total > 0` and
`0` otherwise; Python computes that quotient in double precision, IDEALIZED
here in exact integer arithmetic as `downloaded * 100 / total` (truncated
division).  The idealization coincides with the program except at
floating-point rounding boundaries, where the double computation can land
one below the exact floor; `progressHookFP` below is the bit-exact
refinement (via `pctFloat`) that reproduces those boundary cases too.  On
`status == "finished"` the record moves to `"converting"` at 100 percent. -/
def progressHook (d : ProgressDict) (t : DownloadTask) : DownloadTask :=
  if d.status = "downloading" then
    let total := pyOrTotal d.total_bytes d.total_bytes_estimate
    let pct := if 0 < total then d.downloaded_bytes * 100 / total else 0
    { t with status := "downloading", percent := pct }
  else if d.status = "finished" then
    { t with status := "converting", percent := 100 }
  else t

/-- The task states reached by hooking a sequence of progress dictionaries,
starting from `t` (the record as created) and including every intermediate
record a poller could observe. -/
def statesOf (t : DownloadTask) : List ProgressDict → List DownloadTask
  | [] => [t]
  | d :: ds => t :: statesOf (progressHook d t) ds

/-- Floor base-2 logarithm by structural fuel recursion (the fuel `n` far
exceeds the `log2 n` halvings needed, and the recursion stops early), so
that it evaluates by kernel reduction. -/
def log2fuel : Nat → Nat → Nat
  | 0, _ => 0
  | fuel + 1, n => if n < 2 then 0 else 1 + log2fuel fuel (n / 2)

/-- Floor base-2 logarithm of a positive number (0 at 0). -/
def natLog2 (n : Nat) : Nat := log2fuel n n

/-- Scale the fraction `num / den` by `2 ^ S` without leaving the integers:
returns a numerator/denominator pair whose quotient is `num / den * 2 ^ S`. -/
def scaleParts (num den : Nat) (S : Int) : Nat × Nat :=
  if 0 ≤ S then (num * 2 ^ S.toNat, den) else (num, den * 2 ^ (-S).toNat)

/-- The binade shift used to round `num / den` to a 53-bit significand: the
unique `S` with `2 ^ 52 ≤ num / den * 2 ^ S < 2 ^ 53` (for positive inputs).
A first guess from the bit lengths is corrected by direct comparison. -/
def floatShift (num den : Nat) : Int :=
  let S0 : Int := 52 - (natLog2 num : Int) + (natLog2 den : Int)
  if (scaleParts num den S0).1 < 2 ^ 52 * (scaleParts num den S0).2 then S0 + 1
  else if 2 ^ 53 * (scaleParts num den S0).2 ≤ (scaleParts num den S0).1 then S0 - 1
  else S0

/-- Round the scaled fraction `num / den * 2 ^ S` to the nearest integer,
ties to even — the significand of the IEEE-754 rounding of `num / den` when
`S = floatShift num den`. -/
def roundAtShift (num den : Nat) (S : Int) : Nat :=
  let N := (scaleParts num den S).1
  let D := (scaleParts num den S).2
  let q := N / D
  let r := N % D
  if D < 2 * r then q + 1
  else if 2 * r < D then q
  else if q % 2 = 0 then q else q + 1

/-- Correctly round the non-negative rational `num / den` to an IEEE-754
double: the result `(m, S)` denotes the value `m / 2 ^ S` with a 53-bit
significand `m`, rounded to nearest, ties to even.  The exponent is
unbounded, which agrees with binary64 on the whole normal range — every
value this server's percent computation can produce lies far inside it
(no subnormals below `2 ^ -1022`, no overflow at `1.8e308`). -/
def roundRat53 (num den : Nat) : Nat × Int :=
  (roundAtShift num den (floatShift num den), floatShift num den)

/-- Correctly rounded IEEE-754 double multiplication of the double
`m / 2 ^ S` by the exactly representable constant 100. -/
def roundMul100 (m : Nat) (S : Int) : Nat × Int :=
  if 0 ≤ S then roundRat53 (m * 100) (2 ^ S.toNat)
  else roundRat53 (m * 100 * 2 ^ (-S).toNat) 1

/-- Python `int(x)` on the non-negative double `m / 2 ^ S`: truncation
toward zero. -/
def truncFloat (m : Nat) (S : Int) : Nat :=
  if 0 ≤ S then m / 2 ^ S.toNat else m * 2 ^ (-S).toNat

/-- `int(downloaded / total * 100)` exactly as CPython evaluates it (source
lines 97 and 182): correctly rounded double-precision true division of the
two integers, correctly rounded double multiplication by 100, truncation.
Differs from the exact `downloaded * 100 / total` at rounding boundaries,
e.g. `pctFloat 29 100 = 28` while the exact floor is 29.  (The `total = 0`
guard is unreachable: the hook divides only when `total > 0`.) -/
def pctFloat (downloaded total : Nat) : Nat :=
  if total = 0 then 0
  else
    let q1 := roundRat53 downloaded total
    let q2 := roundMul100 q1.1 q1.2
    truncFloat q2.1 q2.2

/-- The `_progress_hook` closures again (source lines 92-102 and 177-187),
with the percent computation modelled bit-exactly by `pctFloat` instead of
the exact-arithmetic idealization of `progressHook`. -/
def progressHookFP (d : ProgressDict) (t : DownloadTask) : DownloadTask :=
  if d.status = "downloading" then
    let total := pyOrTotal d.total_bytes d.total_bytes_estimate
    let pct := if 0 < total then pctFloat d.downloaded_bytes total else 0
    { t with status := "downloading", percent := pct }
  else if d.status = "finished" then
    { t with status := "converting", percent := 100 }
  else t

/-- Task identifier allocation, `str(int(time.time() * 1000))` (source lines
84 and 168), from the wall-clock millisecond at creation. -/
def makeTaskId (nowMs : Nat) : String := toString nowMs

/-- Python dictionary assignment `download_tasks[task_id] = record` on the
registry, kept as an insertion-ordered association list exactly as a Python
dict is: an existing key is updated in place, a new key is appended. -/
def pyDictSet (reg : List (String × DownloadTask)) (k : String)
    (v : DownloadTask) : List (String × DownloadTask) :=
  match reg with
  | [] => [(k, v)]
  | p :: rest => if p.1 = k then (k, v) :: rest else p :: pyDictSet rest k v

/-- Python `download_tasks.get(task_id)` (source line 139). -/
def pyDictGet (reg : List (String × DownloadTask)) (k : String) :
    Option DownloadTask :=
  (reg.find? (fun p => p.1 == k)).map Prod.snd

/-- The task-creation prefix of `api_download` (source lines 84-90): allocate
the id from the current millisecond and insert the initial record. -/
def apiDownloadStart (nowMs : Nat) (title : String)
    (reg : List (String × DownloadTask)) :
    String × List (String × DownloadTask) :=
  let tid := makeTaskId nowMs
  (tid, pyDictSet reg tid (initDownloadTask title))

/-- The task-creation prefix of `api_search_download` (source lines 168-175). -/
def apiSearchDownloadStart (nowMs : Nat) (query : String)
    (reg : List (String × DownloadTask)) :
    String × List (String × DownloadTask) :=
  let tid := makeTaskId nowMs
  (tid, pyDictSet reg tid (initSearchTask query))

/-- `pathlib` parsing of one path operand: split on `/` and drop empty and
`"."` segments (`".."` segments are kept as parts). -/
def pyParts (s : String) : List String :=
  ((splitOnChar '/' s.toList).map String.mk).filter (fun seg => seg != "" && seg != ".")

/-- `DOWNLOADS_DIR / filename` (source line 272): an absolute right operand
replaces the base entirely, otherwise the parts are appended. -/
def joinPath (base : List String) (filename : String) : List String :=
  if strStartsWith filename "/" then pyParts filename else base ++ pyParts filename

/-- What the operating system resolves the joined parts to when the path is
looked up (`exists` / `unlink`): each `".."` pops the previous segment
(staying at the root when there is none), absent symlinks. -/
def resolvePath (parts : List String) : List String :=
  parts.foldl (fun acc s => if s = ".." then acc.dropLast else acc ++ [s]) []

/-- `pathlib.PurePath.suffix` of a final path component `name`: the text from
the last dot, provided that dot is neither the first nor the last character;
otherwise the empty string. -/
def pySuffix (name : String) : String :=
  let cs := name.toList
  match cs.reverse.findIdx? (fun c => c = '.') with
  | none => ""
  | some j =>
    let i := cs.length - 1 - j
    if 0 < i ∧ i < cs.length - 1 then String.mk (cs.drop i) else ""

/-- Whether a list of numbers is sorted in non-decreasing order, as an
executable predicate (used to state percent monotonicity). -/
def nondecreasing : List Nat → Bool
  | [] => true
  | [_] => true
  | a :: b :: rest => decide (a ≤ b) && nondecreasing (b :: rest)

/-- Whether a resolved path lies inside the managed output directory. -/
def withinDir (base p : List String) : Bool :=
  decide (base = p.take base.length)

/-- `api_delete` (source lines 267-276) over a filesystem `fs` given as the
set of existing files (each a resolved absolute path from the root, as
segment lists): build `DOWNLOADS_DIR / filename`, and when that path exists
and its `pathlib` suffix is `".mp3"`, unlink it and report success; otherwise
report failure and leave the filesystem unchanged.  Returns the filesystem
after the call and the success flag. -/
def apiDelete (base : List String) (fs : List (List String))
    (filename : String) : List (List String) × Bool :=
  let parts := joinPath base filename
  let resolved := resolvePath parts
  let name := (parts.getLast?).getD ""
  if resolved ∈ fs ∧ pySuffix name = ".mp3" then
    (fs.filter (fun p => decide (p ≠ resolved)), true)
  else (fs, false)

end Server

namespace Scraper

theorem foldlMax_self_or_mem (key : FsFile → Nat) (xs : List FsFile) :
    ∀ x : FsFile,
      xs.foldl (fun b y => if key b < key y then y else b) x = x ∨
      xs.foldl (fun b y => if key b < key y then y else b) x ∈ xs := by
  induction xs with
  | nil => intro x; exact Or.inl rfl
  | cons y ys ih =>
    intro x
    simp only [List.foldl_cons]
    rcases ih (if key x < key y then y else x) with h | h
    · by_cases hxy : key x < key y
      · rw [h, if_pos hxy]
        exact Or.inr (List.mem_cons_self y ys)
      · rw [h, if_neg hxy]
        exact Or.inl rfl
    · exact Or.inr (List.mem_cons_of_mem y h)

theorem foldlMax_le (key : FsFile → Nat) (xs : List FsFile) :
    ∀ x : FsFile,
      key x ≤ key (xs.foldl (fun b y => if key b < key y then y else b) x) ∧
      ∀ z ∈ xs, key z ≤ key (xs.foldl (fun b y => if key b < key y then y else b) x) := by
  induction xs with
  | nil =>
    intro x
    refine ⟨Nat.le_refl _, ?_⟩
    intro z hz
    exact absurd hz (List.not_mem_nil z)
  | cons y ys ih =>
    intro x
    simp only [List.foldl_cons]
    have hx : key x ≤ key (if key x < key y then y else x) := by
      by_cases hxy : key x < key y
      · rw [if_pos hxy]; exact Nat.le_of_lt hxy
      · rw [if_neg hxy]
    have hy : key y ≤ key (if key x < key y then y else x) := by
      by_cases hxy : key x < key y
      · rw [if_pos hxy]
      · rw [if_neg hxy]; exact Nat.le_of_not_lt hxy
    obtain ⟨h1, h2⟩ := ih (if key x < key y then y else x)
    refine ⟨Nat.le_trans hx h1, ?_⟩
    intro z hz
    rcases List.mem_cons.mp hz with rfl | hz
    · exact Nat.le_trans hy h1
    · exact h2 z hz

/-- C8: `_find_mp3` returns `None` when the directory holds no `.mp3` file,
and otherwise returns a `.mp3` file of the directory whose modification time
is maximal among the `.mp3` files; when the `.mp3` modification times are
pairwise distinct it returns exactly the most recently modified `.mp3`
file. -/
theorem findMp3_spec (dir : List FsFile) :
    (dir.filter isMp3 = [] → findMp3 dir = none) ∧
    (∀ f, findMp3 dir = some f →
      isMp3 f = true ∧ f ∈ dir ∧ ∀ g ∈ dir, isMp3 g = true → g.mtime ≤ f.mtime) ∧
    (∀ f ∈ dir, isMp3 f = true →
      (∀ g ∈ dir, isMp3 g = true → g ≠ f → g.mtime < f.mtime) →
      findMp3 dir = some f) := by
  refine ⟨?_, ?_, ?_⟩
  · intro h
    simp [findMp3, h]
  · intro f hf
    rw [findMp3] at hf
    cases hmp3 : dir.filter isMp3 with
    | nil => rw [hmp3] at hf; cases hf
    | cons a as =>
      rw [hmp3] at hf
      simp only [pyMaxBy] at hf
      have hfeq : as.foldl (fun b y => if b.mtime < y.mtime then y else b) a = f :=
        Option.some.inj hf
      have hmem : f ∈ dir.filter isMp3 := by
        rw [hmp3]
        rcases foldlMax_self_or_mem FsFile.mtime as a with h | h
        · rw [hfeq] at h
          rw [h]
          exact List.mem_cons_self a as
        · rw [hfeq] at h
          exact List.mem_cons_of_mem a h
      refine ⟨List.of_mem_filter hmem, List.mem_of_mem_filter hmem, ?_⟩
      intro g hg hgmp3
      have hgmem : g ∈ dir.filter isMp3 := List.mem_filter.mpr ⟨hg, hgmp3⟩
      rw [hmp3] at hgmem
      obtain ⟨h1, h2⟩ := foldlMax_le FsFile.mtime as a
      rw [hfeq] at h1 h2
      rcases List.mem_cons.mp hgmem with rfl | hgmem
      · exact h1
      · exact h2 g hgmem
  · intro f hf hfmp3 hmax
    have hfmem : f ∈ dir.filter isMp3 := List.mem_filter.mpr ⟨hf, hfmp3⟩
    cases hmp3 : dir.filter isMp3 with
    | nil => rw [hmp3] at hfmem; exact absurd hfmem (List.not_mem_nil f)
    | cons a as =>
      have heq : findMp3 dir =
          some (as.foldl (fun b y => if b.mtime < y.mtime then y else b) a) := by
        rw [findMp3, hmp3]
        simp only [pyMaxBy]
      set m := as.foldl (fun b y => if b.mtime < y.mtime then y else b) a with hm
      have hmmem : m ∈ dir.filter isMp3 := by
        rw [hmp3]
        rcases foldlMax_self_or_mem FsFile.mtime as a with h | h
        · rw [hm, h]; exact List.mem_cons_self a as
        · exact List.mem_cons_of_mem a h
      have hfle : f.mtime ≤ m.mtime := by
        rw [hmp3] at hfmem
        obtain ⟨h1, h2⟩ := foldlMax_le FsFile.mtime as a
        rcases List.mem_cons.mp hfmem with rfl | hfmem
        · exact h1
        · exact h2 f hfmem
      by_cases hmf : m = f
      · rw [heq, hmf]
      · have hlt : m.mtime < f.mtime :=
          hmax m (List.mem_of_mem_filter hmmem) (List.of_mem_filter hmmem) hmf
        exact absurd (Nat.lt_of_le_of_lt hfle hlt) (Nat.lt_irrefl _)

/-- Witness for C8: over a directory holding three `.mp3` files with distinct
modification times (5, 9, 7) and a newer non-`.mp3` file, the locator returns
exactly the `.mp3` file with timestamp 9; over a directory with no `.mp3`
file it returns `none`. -/
theorem findMp3_spec_witness :
    findMp3 [⟨"a.mp3", 5⟩, ⟨"b.mp3", 9⟩, ⟨"c.mp3", 7⟩, ⟨"d.txt", 100⟩] =
      some ⟨"b.mp3", 9⟩ ∧
    findMp3 [⟨"d.txt", 100⟩] = none := by
  constructor
  · refine (findMp3_spec _).2.2 ⟨"b.mp3", 9⟩ (by decide) (by decide) ?_
    intro g hg hgmp3 hgne
    fin_cases hg
    · decide
    · exact absurd rfl hgne
    · decide
    · exact absurd hgmp3 (by decide)
  · exact (findMp3_spec _).1 (by decide)

/-- C7: for a catalog (Spotify) URL `download` tries the spotdl provider
first and returns its result on success; on any spotdl failure it falls back
unconditionally to the yt-dlp provider; for a non-catalog URL it goes
straight to the yt-dlp provider; and an error comes out of `download` only
when the yt-dlp provider — the last provider in the chain — also failed with
that error. -/
theorem download_chain_spec (url : String) (s y : Except DlErr FsFile) :
    (isSpotifyUrl url = false → download url s y = y) ∧
    (isSpotifyUrl url = true → ∀ p, s = Except.ok p → download url s y = Except.ok p) ∧
    (isSpotifyUrl url = true → ∀ e, s = Except.error e → download url s y = y) ∧
    (∀ e, download url s y = Except.error e → y = Except.error e) := by
  refine ⟨?_, ?_, ?_, ?_⟩
  · intro h; simp [download, h]
  · intro h p hp; subst hp; simp [download, h]
  · intro h e he; subst he; simp [download, h]
  · intro e he
    cases hs : isSpotifyUrl url with
    | false => simp only [download, hs, Bool.false_eq_true, if_false] at he; exact he
    | true =>
      simp only [download, hs, if_true] at he
      cases s with
      | ok p => cases he
      | error e2 => exact he

/-- Witness for C7: a YouTube URL goes straight to the yt-dlp result; a
Spotify URL returns the spotdl file on success and falls back to the yt-dlp
result when spotdl failed. -/
theorem download_chain_spec_witness :
    download "https://www.youtube.com/watch?v=abc"
        (Except.error DlErr.providerException) (Except.ok ⟨"y.mp3", 1⟩) =
      Except.ok ⟨"y.mp3", 1⟩ ∧
    download "https://open.spotify.com/track/t"
        (Except.ok ⟨"s.mp3", 2⟩) (Except.error DlErr.providerException) =
      Except.ok ⟨"s.mp3", 2⟩ ∧
    download "https://open.spotify.com/track/t"
        (Except.error DlErr.providerException) (Except.ok ⟨"y.mp3", 3⟩) =
      Except.ok ⟨"y.mp3", 3⟩ := by
  refine ⟨?_, ?_, ?_⟩
  · exact (download_chain_spec _ _ _).1 (by decide)
  · exact (download_chain_spec _ _ _).2.1 (by decide) _ rfl
  · exact (download_chain_spec _ _ _).2.2.1 (by decide) _ rfl

/-- C6: `search` tries the spotdl (Spotify) provider first; when that
provider raised, returned no URLs, or returned no usable metadata, the
result is exactly the YouTube Music fallback's; when the primary provider
produced a URL with usable metadata, that metadata is returned; and the
fallback on an empty entry list — so both providers with zero candidates —
fails with the `LookupError`. -/
theorem search_fallback_spec (urlCall : ProcOutcome) (metaOf : String → Option SpotMeta)
    (entries : List (Option Entry)) (q : String) :
    (primaryFailed urlCall = true →
      search urlCall metaOf entries q = searchYtmusic entries q) ∧
    (∀ lines, urlCall = ProcOutcome.ok lines → extractUrls lines = [] →
      search urlCall metaOf entries q = searchYtmusic entries q) ∧
    (∀ lines u rest, urlCall = ProcOutcome.ok lines → extractUrls lines = u :: rest →
      metaOf u = none → search urlCall metaOf entries q = searchYtmusic entries q) ∧
    (∀ lines u rest m, urlCall = ProcOutcome.ok lines → extractUrls lines = u :: rest →
      metaOf u = some m → search urlCall metaOf entries q = Except.ok (metaOfSpot u m q)) ∧
    (searchYtmusic [] q = Except.error (SearchErr.lookupError q)) := by
  refine ⟨?_, ?_, ?_, ?_, rfl⟩
  · intro h
    cases urlCall with
    | ok lines => simp [primaryFailed] at h
    | timeoutExpired => rfl
    | fileNotFoundError => rfl
    | otherException => rfl
  · intro lines h he; subst h; simp [search, he]
  · intro lines u rest h he hm; subst h; simp [search, he, hm]
  · intro lines u rest m h he hm; subst h; simp [search, he, hm]

/-- Witness for C6: a timed-out spotdl with an empty fallback entry list
yields the `LookupError`; a spotdl run whose stdout held no URL lines also
falls back; and a found Spotify URL with parsed metadata is returned
directly. -/
theorem search_fallback_spec_witness :
    search ProcOutcome.timeoutExpired (fun _ => none) [] "nonexistent-query-xyz" =
      Except.error (SearchErr.lookupError "nonexistent-query-xyz") ∧
    search (ProcOutcome.ok ["no result lines"]) (fun _ => none) [] "q2" =
      Except.error (SearchErr.lookupError "q2") ∧
    search (ProcOutcome.ok [" https://open.spotify.com/track/x "]) (fun _ => some longMix)
        [] "long mix" =
      Except.ok (metaOfSpot "https://open.spotify.com/track/x" longMix "long mix") := by
  refine ⟨?_, ?_, ?_⟩
  · have h := search_fallback_spec ProcOutcome.timeoutExpired (fun _ => none) [] "nonexistent-query-xyz"
    exact (h.1 rfl).trans h.2.2.2.2
  · have h := search_fallback_spec (ProcOutcome.ok ["no result lines"]) (fun _ => none) [] "q2"
    exact (h.2.1 _ rfl (by decide)).trans h.2.2.2.2
  · have h := search_fallback_spec (ProcOutcome.ok [" https://open.spotify.com/track/x "])
      (fun _ => some longMix) [] "long mix"
    exact h.2.2.2.1 _ "https://open.spotify.com/track/x" [] longMix rfl (by decide) rfl

/-- C10: `search_multi` never raises — when the extractor raised, the empty
list is returned — and the returned list never holds more than `limit`
entries. -/
theorem searchMulti_safe (limit : Nat) (provider : Except Unit (List (Option Entry))) :
    searchMulti (Except.error ()) limit = [] ∧
    (searchMulti provider limit).length ≤ limit := by
  constructor
  · rfl
  · cases provider with
    | error e => simp [searchMulti]
    | ok entries =>
      simp only [searchMulti]
      exact List.length_take_le limit _

/-- C4 counterexample: the fallback search applies no title-based scoring.
With the "Live" candidate listed before the "Official Audio" candidate,
both with duration 200 s, the "Live" candidate is selected — the claimed
+3 versus −10 scoring preference does not exist in the code. -/
theorem searchYtmusic_picks_live_first :
    searchYtmusic [some eLive, some eAudio] "Song X" = Except.ok (metaOfEntry eLive) ∧
    (metaOfEntry eLive).title = "Song X (Live)" ∧
    (metaOfEntry eAudio).title = "Song X (Official Audio)" ∧
    durOr0 eLive = 200 ∧ durOr0 eAudio = 200 := by
  refine ⟨by decide, by decide, by decide, rfl, rfl⟩

/-- C4 amended: the secondary search ranks by nothing but the duration
window — the first candidate whose duration lies in `[90, 420]` seconds is
selected, regardless of title; two otherwise-identical candidates at 200 s
are chosen purely by list position. -/
theorem searchYtmusic_first_in_range (e : Entry) (rest : List (Option Entry))
    (q : String) (h : inRange (some e) = true) :
    searchYtmusic (some e :: rest) q = Except.ok (metaOfEntry e) := by
  rw [searchYtmusic]
  rw [List.find?_cons_of_pos _ h]
  rfl

/-- Witness for C4 amended: with the "Official Audio" candidate listed
first, it is the one selected. -/
theorem searchYtmusic_first_in_range_witness :
    searchYtmusic [some eAudio, some eLive] "Song X" = Except.ok (metaOfEntry eAudio) :=
  searchYtmusic_first_in_range eAudio [some eLive] "Song X" (by decide)

/-- C3 (code bug): `MAX_DURATION` is declared but never consulted —
`search_and_download` downloads a resolved track of duration 1000 s
(exceeding the 900 s maximum) without any rejection: the pipeline returns
the downloaded file instead of failing before acquisition. -/
theorem search_and_download_ignores_max_duration :
    search_and_download (ProcOutcome.ok ["https://open.spotify.com/track/abc"])
        (fun _ => some longMix) [] "long mix"
        (Except.ok ⟨"Long Mix.mp3", 3⟩) (Except.error DlErr.providerException) =
      Except.ok (metaOfSpot "https://open.spotify.com/track/abc" longMix "long mix",
        ⟨"Long Mix.mp3", 3⟩) ∧
    MAX_DURATION <
      (metaOfSpot "https://open.spotify.com/track/abc" longMix "long mix").duration := by
  refine ⟨by decide, by decide⟩

end Scraper

namespace Server

/-- C1 (code bug): `api_delete` checks only existence and the `".mp3"`
suffix, never that the name resolves inside the managed downloads
directory.  With the downloads directory at `home/app/downloads`, the
request name `"../secret.mp3"` resolves to `home/app/secret.mp3` — outside
the managed directory — yet the call deletes that file and reports success,
instead of failing and leaving the filesystem unchanged. -/
theorem apiDelete_traversal_deletes_outside :
    apiDelete ["home", "app", "downloads"]
        [["home", "app", "secret.mp3"], ["home", "app", "downloads", "song.mp3"]]
        "../secret.mp3" =
      ([["home", "app", "downloads", "song.mp3"]], true) ∧
    withinDir ["home", "app", "downloads"]
      (resolvePath (joinPath ["home", "app", "downloads"] "../secret.mp3")) = false := by
  refine ⟨by decide, by decide⟩

theorem roundAtShift_nearest (num den : Nat) (S : Int)
    (hD : 0 < (scaleParts num den S).2) :
    2 * (roundAtShift num den S * (scaleParts num den S).2) ≤
      2 * (scaleParts num den S).1 + (scaleParts num den S).2 ∧
    2 * (scaleParts num den S).1 ≤
      2 * (roundAtShift num den S * (scaleParts num den S).2) +
        (scaleParts num den S).2 := by
  simp only [roundAtShift]
  set N := (scaleParts num den S).1 with hNdef
  set D := (scaleParts num den S).2 with hDdef
  have hND : D * (N / D) + N % D = N := Nat.div_add_mod N D
  have hr : N % D < D := Nat.mod_lt _ hD
  set q := N / D with hqdef
  set r := N % D with hrdef
  by_cases h1 : D < 2 * r
  · rw [if_pos h1]
    have h4 : (q + 1) * D = D * q + D := by ring
    rw [h4]
    constructor <;> linarith
  · rw [if_neg h1]
    by_cases h2 : 2 * r < D
    · rw [if_pos h2]
      have h4 : q * D = D * q := by ring
      rw [h4]
      constructor <;> linarith
    · rw [if_neg h2]
      have heq : 2 * r = D := Nat.le_antisymm (Nat.le_of_not_lt h1) (Nat.le_of_not_lt h2)
      by_cases h3 : q % 2 = 0
      · rw [if_pos h3]
        have h4 : q * D = D * q := by ring
        rw [h4]
        constructor <;> linarith
      · rw [if_neg h3]
        have h4 : (q + 1) * D = D * q + D := by ring
        rw [h4]
        constructor <;> linarith

/-- C2 counterexample: two concrete refutations of the claimed percent
update.  First, an update in status `"downloading"` whose total byte count
is 0 resets the stored percent from 50 to 0 — the previously stored value is
not left unchanged.  Second, an update of 29 of 100 bytes stores 28 percent,
one below the claimed `floor(29 / 100 * 100) = 29`, because the program
computes `int(29 / 100 * 100)` in double precision where `29 / 100` rounds
below `0.29`. -/
theorem progressHookFP_percent_counterexample :
    (progressHookFP ⟨"downloading", 10, some 0, none⟩
      ⟨"downloading", 50, "t", none, none, none⟩).percent = 0 ∧
    (⟨"downloading", 50, "t", none, none, none⟩ : DownloadTask).percent = 50 ∧
    (progressHookFP ⟨"downloading", 29, some 100, none⟩
      ⟨"downloading", 0, "t", none, none, none⟩).percent = 28 ∧
    29 * 100 / 100 = 29 := by
  refine ⟨by decide, rfl, by decide, rfl⟩

/-- C2 amended: for every progress update in status `"downloading"`, the
task status is set to `"downloading"`; the stored percent becomes
`int(bytesDownloaded / bytesTotal * 100)` evaluated in IEEE-754 double
precision (`pctFloat` — which can land one below the exact
`floor(bytesDownloaded * 100 / bytesTotal)` at rounding boundaries, e.g.
28 instead of 29 at 29 of 100 bytes) when the total (after the
`total_bytes_estimate` fallback) is positive, and is set to 0 — not left
unchanged — when that total is 0 or absent. -/
theorem progressHookFP_downloading_spec (d : ProgressDict) (t : DownloadTask)
    (h : d.status = "downloading") :
    (progressHookFP d t).status = "downloading" ∧
    (0 < pyOrTotal d.total_bytes d.total_bytes_estimate →
      (progressHookFP d t).percent =
        pctFloat d.downloaded_bytes (pyOrTotal d.total_bytes d.total_bytes_estimate)) ∧
    (pyOrTotal d.total_bytes d.total_bytes_estimate = 0 →
      (progressHookFP d t).percent = 0) := by
  refine ⟨?_, ?_, ?_⟩
  · simp [progressHookFP, h]
  · intro hpos
    simp [progressHookFP, h, hpos]
  · intro h0
    simp [progressHookFP, h, h0]

/-- Witness for C2 amended: an update of 50 of 200 bytes yields status
`"downloading"` at 25 percent (here the double computation is exact:
`pctFloat 50 200 = 25`). -/
theorem progressHookFP_downloading_spec_witness :
    (progressHookFP ⟨"downloading", 50, some 200, none⟩
      ⟨"downloading", 10, "t", none, none, none⟩).status = "downloading" ∧
    (progressHookFP ⟨"downloading", 50, some 200, none⟩
      ⟨"downloading", 10, "t", none, none, none⟩).percent = 25 := by
  have h := progressHookFP_downloading_spec ⟨"downloading", 50, some 200, none⟩
    ⟨"downloading", 10, "t", none, none, none⟩ rfl
  exact ⟨h.1, (h.2.1 (by decide)).trans (by decide)⟩

/-- C5 counterexample: across two updates with increasing downloaded bytes
(50 then 60) in status `"downloading"`, the stored percent goes 0, 50, 0 —
it decreases — because the second update reports a zero total.  The claimed
unconditional monotonicity over increasing byte counts is false. -/
theorem percent_drops_on_zero_total :
    nondecreasing (List.map ProgressDict.downloaded_bytes
      ([⟨"downloading", 50, some 100, none⟩,
        ⟨"downloading", 60, some 0, none⟩] : List ProgressDict)) = true ∧
    nondecreasing (List.map DownloadTask.percent
      (statesOf (initDownloadTask "t")
        [⟨"downloading", 50, some 100, none⟩,
         ⟨"downloading", 60, some 0, none⟩])) = false := by
  refine ⟨by decide, by decide⟩

theorem nondecreasing_cons (a : Nat) (l : List Nat) :
    nondecreasing (a :: l) = true ↔
      ((∀ b, l.head? = some b → a ≤ b) ∧ nondecreasing l = true) := by
  cases l with
  | nil => simp [nondecreasing]
  | cons b rest =>
    simp only [nondecreasing, Bool.and_eq_true, decide_eq_true_eq, List.head?_cons]
    constructor
    · rintro ⟨h1, h2⟩
      refine ⟨?_, h2⟩
      intro c hc
      obtain rfl := Option.some.inj hc
      exact h1
    · rintro ⟨h1, h2⟩
      exact ⟨h1 b rfl, h2⟩

theorem progressHook_percent_formula (d : ProgressDict) (t : DownloadTask)
    (h : d.status = "downloading") :
    (progressHook d t).percent =
      d.downloaded_bytes * 100 / pyOrTotal d.total_bytes d.total_bytes_estimate := by
  by_cases hpos : 0 < pyOrTotal d.total_bytes d.total_bytes_estimate
  · simp [progressHook, h, hpos]
  · have h0 : pyOrTotal d.total_bytes d.total_bytes_estimate = 0 :=
      Nat.eq_zero_of_not_pos hpos
    simp [progressHook, h, h0]

theorem statesOf_map_percent_head (t : DownloadTask) (ds : List ProgressDict) :
    (List.map DownloadTask.percent (statesOf t ds)).head? = some t.percent := by
  cases ds <;> rfl

/-- C5 amended: the stored percent is non-decreasing across a sequence of
`"downloading"` progress updates with non-decreasing downloaded byte counts,
provided every update reports the same total byte count (the percent is
recomputed from each update's own total, so a shrinking or vanishing total
can lower it). -/
theorem percent_chain_fixed_total (T : Nat) :
    ∀ (ds : List ProgressDict) (t : DownloadTask),
      (∀ d ∈ ds, d.status = "downloading" ∧
        pyOrTotal d.total_bytes d.total_bytes_estimate = T) →
      nondecreasing (List.map ProgressDict.downloaded_bytes ds) = true →
      (∀ d, ds.head? = some d → t.percent ≤ d.downloaded_bytes * 100 / T) →
      nondecreasing (List.map DownloadTask.percent (statesOf t ds)) = true := by
  intro ds
  induction ds with
  | nil =>
    intro t _ _ _
    rfl
  | cons d ds ih =>
    intro t hall hmono hhead
    have hd := hall d (List.mem_cons_self d ds)
    have hstep : (progressHook d t).percent = d.downloaded_bytes * 100 / T := by
      rw [progressHook_percent_formula d t hd.1, hd.2]
    show nondecreasing
      (List.map DownloadTask.percent (t :: statesOf (progressHook d t) ds)) = true
    rw [List.map_cons]
    refine (nondecreasing_cons _ _).mpr ⟨?_, ?_⟩
    · intro b hb
      rw [statesOf_map_percent_head] at hb
      obtain rfl := Option.some.inj hb
      rw [hstep]
      exact hhead d rfl
    · apply ih (progressHook d t)
      · intro d2 hd2
        exact hall d2 (List.mem_cons_of_mem d hd2)
      · rw [List.map_cons] at hmono
        exact ((nondecreasing_cons _ _).mp hmono).2
      · intro d2 hd2
        rw [hstep]
        have hdd : d.downloaded_bytes ≤ d2.downloaded_bytes := by
          rw [List.map_cons] at hmono
          have h1 := ((nondecreasing_cons _ _).mp hmono).1
          apply h1
          rw [List.head?_map, hd2]
          rfl
        exact Nat.div_le_div_right (Nat.mul_le_mul_right 100 hdd)

/-- Witness for C5 amended: two updates with a fixed total of 1000 bytes and
downloaded counts 100 then 250 yield the non-decreasing percent trace
0, 10, 25. -/
theorem percent_chain_fixed_total_witness :
    nondecreasing (List.map DownloadTask.percent
      (statesOf (initDownloadTask "t")
        [⟨"downloading", 100, some 1000, none⟩,
         ⟨"downloading", 250, some 1000, none⟩])) = true := by
  apply percent_chain_fixed_total 1000
  · intro d hd
    cases hd with
    | head => exact ⟨rfl, rfl⟩
    | tail _ h2 =>
      cases h2 with
      | head => exact ⟨rfl, rfl⟩
      | tail _ h3 => cases h3
  · decide
  · intro d hd
    obtain rfl := Option.some.inj hd
    decide

end Server

namespace Server

/-- C9 counterexample: two task creations in the same wall-clock millisecond
— one through `/api/download`, one through `/api/search-download` — receive
the identical identifier `"1700000000000"`, and the second insertion
overwrites the first task's registry entry: after both creations the
registry holds a single record, the second task's. -/
theorem same_millisecond_same_taskId :
    (apiDownloadStart 1700000000000 "song A" []).1 =
      (apiSearchDownloadStart 1700000000000 "song B"
        (apiDownloadStart 1700000000000 "song A" []).2).1 ∧
    (apiSearchDownloadStart 1700000000000 "song B"
        (apiDownloadStart 1700000000000 "song A" []).2).2 =
      [("1700000000000", initSearchTask "song B")] := by
  refine ⟨rfl, by decide⟩

theorem pyDictSet_keys (reg : List (String × DownloadTask)) (k : String)
    (v : DownloadTask) :
    (pyDictSet reg k v).map Prod.fst =
      if k ∈ reg.map Prod.fst then reg.map Prod.fst
      else reg.map Prod.fst ++ [k] := by
  induction reg with
  | nil => simp [pyDictSet]
  | cons p rest ih =>
    by_cases hpk : p.1 = k
    · simp [pyDictSet, hpk]
    · simp only [pyDictSet, if_neg hpk, List.map_cons, ih]
      by_cases hk : k ∈ rest.map Prod.fst
      · simp [hk, List.mem_cons, Ne.symm hpk]
      · simp [hk, List.mem_cons, Ne.symm hpk]

theorem pyDictSet_keys_nodup (reg : List (String × DownloadTask)) (k : String)
    (v : DownloadTask) (h : (reg.map Prod.fst).Nodup) :
    ((pyDictSet reg k v).map Prod.fst).Nodup := by
  rw [pyDictSet_keys]
  by_cases hk : k ∈ reg.map Prod.fst
  · simpa [hk] using h
  · rw [if_neg hk]
    refine List.Nodup.append h (List.nodup_singleton k) ?_
    intro a ha hb
    rw [List.mem_singleton] at hb
    subst hb
    exact hk ha

theorem pyDictGet_set_self (reg : List (String × DownloadTask)) (k : String)
    (v : DownloadTask) :
    pyDictGet (pyDictSet reg k v) k = some v := by
  induction reg with
  | nil => simp [pyDictSet, pyDictGet, List.find?]
  | cons p rest ih =>
    by_cases hpk : p.1 = k
    · simp [pyDictSet, hpk, pyDictGet, List.find?]
    · simp only [pyDictSet, if_neg hpk, pyDictGet]
      rw [List.find?_cons_of_neg _ (by simp [hpk])]
      exact ih

theorem pyDictGet_set_other (reg : List (String × DownloadTask)) (k : String)
    (v : DownloadTask) (k2 : String) (h : k2 ≠ k) :
    pyDictGet (pyDictSet reg k v) k2 = pyDictGet reg k2 := by
  induction reg with
  | nil =>
    have hbe : (k == k2) = false := by simp [Ne.symm h]
    simp [pyDictSet, pyDictGet, List.find?, hbe]
  | cons p rest ih =>
    by_cases hpk : p.1 = k
    · simp only [pyDictSet, if_pos hpk, pyDictGet]
      rw [List.find?_cons_of_neg _ (by simp [Ne.symm h]),
        List.find?_cons_of_neg _ (by simp [hpk, Ne.symm h])]
    · simp only [pyDictSet, if_neg hpk, pyDictGet]
      by_cases hpk2 : p.1 = k2
      · rw [List.find?_cons_of_pos _ (by simp [hpk2]),
          List.find?_cons_of_pos _ (by simp [hpk2])]
      · rw [List.find?_cons_of_neg _ (by simp [hpk2]),
          List.find?_cons_of_neg _ (by simp [hpk2])]
        exact ih

/-- C9 amended: a task identifier is the decimal string of the creation
wall-clock millisecond, so creations in the same millisecond share one
identifier and the later creation overwrites the earlier entry.  What the
registry does guarantee, for either creation endpoint: key-uniqueness of the
registry is preserved, the new identifier is bound to exactly the freshly
created record (status `"downloading"` resp. `"searching"`, percent 0), and
every other identifier's record is left untouched. -/
theorem createTask_registry_spec (nowMs : Nat) (title : String)
    (reg : List (String × DownloadTask)) (h : (reg.map Prod.fst).Nodup) :
    ((apiDownloadStart nowMs title reg).2.map Prod.fst).Nodup ∧
    pyDictGet (apiDownloadStart nowMs title reg).2 (makeTaskId nowMs) =
      some (initDownloadTask title) ∧
    (∀ k, k ≠ makeTaskId nowMs →
      pyDictGet (apiDownloadStart nowMs title reg).2 k = pyDictGet reg k) ∧
    ((apiSearchDownloadStart nowMs title reg).2.map Prod.fst).Nodup ∧
    pyDictGet (apiSearchDownloadStart nowMs title reg).2 (makeTaskId nowMs) =
      some (initSearchTask title) ∧
    (∀ k, k ≠ makeTaskId nowMs →
      pyDictGet (apiSearchDownloadStart nowMs title reg).2 k = pyDictGet reg k) := by
  refine ⟨pyDictSet_keys_nodup _ _ _ h, pyDictGet_set_self _ _ _, ?_,
    pyDictSet_keys_nodup _ _ _ h, pyDictGet_set_self _ _ _, ?_⟩
  · intro k hk
    exact pyDictGet_set_other _ _ _ _ hk
  · intro k hk
    exact pyDictGet_set_other _ _ _ _ hk

/-- Witness for C9 amended: creating task `"song"` at millisecond 111 over a
registry already holding key `"42"` keeps the keys unique, binds `"111"` to
the fresh record, and leaves the `"42"` record unchanged. -/
theorem createTask_registry_spec_witness :
    ((apiDownloadStart 111 "song" [("42", initSearchTask "old")]).2.map Prod.fst).Nodup ∧
    pyDictGet (apiDownloadStart 111 "song" [("42", initSearchTask "old")]).2 "111" =
      some (initDownloadTask "song") ∧
    pyDictGet (apiDownloadStart 111 "song" [("42", initSearchTask "old")]).2 "42" =
      some (initSearchTask "old") := by
  have h := createTask_registry_spec 111 "song" [("42", initSearchTask "old")] (by decide)
  exact ⟨h.1, h.2.1, (h.2.2.1 "42" (by decide)).trans (by decide)⟩

end Server
